import Mathlib

/-!
Verification development for the ShadowSettle backend (settlement routes,
iExec client, job ledger, treasury cache).  Each JavaScript function that a
claim depends on is shallowly embedded as an executable Lean definition,
translated clause by clause from the source.
-/

set_option maxRecDepth 10000

namespace ShadowSettle

/-! ## USDC fixed-point formatting (`formatUsdc`, settlement.js lines 31-37)

`formatUsdc(raw)` computes `whole = raw / 10^6`, `frac = raw % 10^6`,
pads the fractional part to 6 digits, truncates it to 2 display digits,
and renders the whole part with `Number.prototype.toLocaleString()`
(comma grouping every three digits). -/

/-! ### Character-level string primitives

The JavaScript string operations used by the source (`toLowerCase`, `trim`,
`startsWith`, character-class tests) are modelled on the character list of the
string, at the ASCII level at which the source applies them (addresses, hex
selectors, URLs). -/

/-- ASCII `toLowerCase` on one character. -/
def lowerChar (c : Char) : Char :=
  if 'A' ≤ c && c ≤ 'Z' then Char.ofNat (c.toNat + 32) else c

/-- `s.toLowerCase()`. -/
def toLowerStr (s : String) : String :=
  String.mk (s.data.map lowerChar)

/-- JavaScript whitespace (the ASCII part) for `trim`. -/
def isWsChar (c : Char) : Bool :=
  c = ' ' || c = '\t' || c = '\n' || c = '\r'

/-- `s.trim()`: strip leading and trailing whitespace. -/
def trimStr (s : String) : String :=
  String.mk (((s.data.dropWhile isWsChar).reverse.dropWhile isWsChar).reverse)

/-- `startsWith` on character lists. -/
def startsWithChars : List Char → List Char → Bool
  | _, [] => true
  | [], _ :: _ => false
  | c :: cs, p :: ps => c = p && startsWithChars cs ps

/-- `s.startsWith(pre)`. -/
def strStartsWith (s pre : String) : Bool :=
  startsWithChars s.data pre.data

/-- Test a predicate on every character of a string. -/
def allChars (s : String) (p : Char → Bool) : Bool :=
  s.data.all p

/-- `String(frac).padStart(6, "0")`: left-pad a string with `'0'` to length 6. -/
def padStart6 (s : String) : String :=
  String.mk (List.replicate (6 - s.length) '0') ++ s

/-- Comma-group a reversed digit list every three digits,
modelling `Number.prototype.toLocaleString()` for the en-US locale. -/
def commaRev : List Char → List Char
  | c1 :: c2 :: c3 :: c4 :: rest => c1 :: c2 :: c3 :: ',' :: commaRev (c4 :: rest)
  | l => l

/-- `whole.toLocaleString()`: decimal rendering with comma thousands separators. -/
def toLocaleString (n : Nat) : String :=
  String.mk ((commaRev (toString n).data.reverse).reverse)

/-- `formatUsdc` from settlement.js: split at 6 decimals, truncate the
fractional part to 2 digits, comma-group the whole part. -/
def formatUsdc (raw : Nat) : String :=
  let d : Nat := 10 ^ 6
  let whole : Nat := raw / d
  let frac : Nat := raw % d
  let fracStr : String := (padStart6 (toString frac)).take 2
  toLocaleString whole ++ "." ++ fracStr

/-! ## `ethers.parseUnits(_, 6)` on exact decimal amounts

`postExecute` converts each amount via `ethers.parseUnits(String(n), USDC_DECIMALS)`
(settlement.js line 355).  On a decimal numeral `w.f₁…f_k` with `k ≤ 6`
fractional digits this is exactly `w·10^6 + (f₁…f_k as an integer)·10^(6-k)`. -/

/-- Fixed-point parse of the decimal numeral with whole part `whole` and
fractional digit list `fracDigits` (each `< 10`, at most 6 of them),
as `ethers.parseUnits(_, 6)` computes it. -/
def parseUnits6 (whole : Nat) (fracDigits : List Nat) : Nat :=
  whole * 10 ^ 6 + (fracDigits.foldl (fun a d => a * 10 + d) 0) * 10 ^ (6 - fracDigits.length)

/-- Canonical decimal rendering `w.f₁…f_k` of the same amount
(the string form the round-trip claim compares against). -/
def renderDec (whole : Nat) (fracDigits : List Nat) : String :=
  toString whole ++ "." ++ String.mk (fracDigits.map (fun d => Char.ofNat (48 + d)))

/-! ## Task Observer (`waitForTask`, iexec-client.js lines 92-120)

`waitForTask` creates a promise, arms a deadline timer whose callback rejects
with `Error("Task observation timeout")`, then subscribes to the task
observable with three handlers: `next` does nothing, `error` clears the timer
and rejects, `complete` clears the timer and resolves.  The value returned by
`obs.subscribe` (the unsubscribe handle) is discarded: no path in the source
cancels the subscription, so only the stream's own terminal events (`error` /
`complete`) ever deactivate it.  We model a run as a sequence of events applied
to an explicit state. -/

deriving instance DecidableEq for Except

inductive WaitEvent where
  | timerFire
  | obsNext
  | obsError (msg : String)
  | obsComplete
deriving DecidableEq, Repr

structure WaitState where
  /-- the deadline timer is armed (true until it fires or `clearTimeout` runs) -/
  timerActive : Bool
  /-- the observable subscription is live; the source never unsubscribes, so
  only a terminal stream event (`error`/`complete`) can clear this -/
  subscriptionActive : Bool
  /-- settled promise value: `none` while pending; a second resolve/reject is a no-op -/
  settled : Option (Except String Unit)
  /-- how many subscription handler invocations have been observed -/
  callbacksSeen : Nat
  /-- how many times an unsubscribe/cancel of the subscription was executed -/
  cancelInvocations : Nat
deriving DecidableEq, Repr

/-- State right after `waitForTask` arms the timer and subscribes. -/
def initWait : WaitState :=
  { timerActive := true, subscriptionActive := true, settled := none,
    callbacksSeen := 0, cancelInvocations := 0 }

/-- Settle a promise: the first resolution wins, later ones are no-ops. -/
def settleOnce (s : Option (Except String Unit)) (v : Except String Unit) :
    Option (Except String Unit) :=
  match s with
  | none => some v
  | some w => some w

/-- One event of a `waitForTask` run, exactly as the handlers in the source
react to it.  The timeout callback only rejects — it does not touch the
subscription; the stream handlers call `clearTimeout` and settle the promise,
and a terminal stream event ends the subscription by the observable contract. -/
def stepWait (s : WaitState) (e : WaitEvent) : WaitState :=
  match e with
  | .timerFire =>
      if s.timerActive then
        { s with timerActive := false,
                 settled := settleOnce s.settled (.error "Task observation timeout") }
      else s
  | .obsNext =>
      if s.subscriptionActive then
        { s with callbacksSeen := s.callbacksSeen + 1 }
      else s
  | .obsError m =>
      if s.subscriptionActive then
        { s with callbacksSeen := s.callbacksSeen + 1,
                 timerActive := false,
                 subscriptionActive := false,
                 settled := settleOnce s.settled (.error m) }
      else s
  | .obsComplete =>
      if s.subscriptionActive then
        { s with callbacksSeen := s.callbacksSeen + 1,
                 timerActive := false,
                 subscriptionActive := false,
                 settled := settleOnce s.settled (.ok ()) }
      else s

/-- Run a `waitForTask` event trace from the initial state. -/
def runWait (es : List WaitEvent) : WaitState :=
  es.foldl stepWait initWait

/-! ## Result Fetcher (`fetchTaskResult`, iexec-client.js lines 126-151)

The task status from `iexec.task.show` is a network value: a number, a string,
or absent.  `fetchTaskResult` treats `3` and `"COMPLETED"` as completed; any
other status is returned verbatim (`status ?? "UNKNOWN"`) with `result: null`.
On the completed path it downloads the archive, requires a `result.json`
entry (throwing if missing), parses it, and returns
`{ status: "COMPLETED", result }`. -/

inductive NetStatus where
  | num (n : Nat)
  | sym (s : String)
deriving DecidableEq, Repr

/-- `status === 3 || status === "COMPLETED"` (on a present status value). -/
def isCompletedStatus (st : Option NetStatus) : Bool :=
  st = some (.num 3) || st = some (.sym "COMPLETED")

/-- Outcome of one `fetchTaskResult` call: either a thrown error or a
`{status, result}` pair.  `resultEntry` is the `result.json` archive entry
(absent = `getEntry` returned null); `jsonParse` models `JSON.parse` on its
UTF-8 text, `.error` being a thrown `SyntaxError`; the parsed payload is kept
opaque. -/
def fetchTaskResult (jsonParse : String → Except String String)
    (st : Option NetStatus) (resultEntry : Option String) :
    Except String (NetStatus × Option String) :=
  if isCompletedStatus st then
    match resultEntry with
    | none => .error "result.json not found in task output"
    | some raw =>
        match jsonParse raw with
        | .error e => .error e
        | .ok payload => .ok (.sym "COMPLETED", some payload)
  else
    .ok (st.getD (.sym "UNKNOWN"), none)

/-! ## Job Ledger (db.js lines 107-205)

The `jobs` table is keyed by `task_id` (UNIQUE).  We model the table as an
association list from task id to row, timestamps as naturals, and the JSONB
`result` payload as its serialized text.  `settlement_name` is a TEXT NOT NULL
column, so the stored row carries it as a plain `String`: PostgreSQL raises a
not-null violation on a proposed row whose `settlement_name` is null before
any ON CONFLICT arbitration, so the upsert's
`COALESCE(EXCLUDED.settlement_name, jobs.settlement_name)` only ever sees a
non-null proposed value. -/

structure JobRow where
  walletAddress : Option String
  taskId : String
  dealId : Option String
  settlementName : String
  status : String
  result : Option String
  error : Option String
  datasetUrlOverride : Option String
  submittedAt : Nat
  settledTxHash : Option String
  settledAt : Option Nat
  createdAt : Nat
  updatedAt : Nat
deriving DecidableEq, Repr

/-- Association-list lookup by task id (the UNIQUE key of the `jobs` table). -/
def findJob (db : List JobRow) (taskId : String) : Option JobRow :=
  db.find? (fun r => r.taskId = taskId)

/-- Replace the row with the given task id (used by UPDATE / upsert). -/
def replaceJob (db : List JobRow) (taskId : String) (new : JobRow) : List JobRow :=
  db.map (fun r => if r.taskId = taskId then new else r)

/-- Arguments of `db.createJob(data)` after the JavaScript destructuring
defaults have been applied (`settlement_name = "Settlement"`,
`status = "submitted"`, `result = null`, `error = null`,
`dataset_url_override = null`, `submitted_at = new Date()` apply only when the
property is absent; an explicit `null` survives as `none`). -/
structure CreateJobData where
  wallet_address : Option String
  task_id : String
  deal_id : Option String
  settlement_name : Option String
  status : String
  result : Option String
  error : Option String
  dataset_url_override : Option String
  submitted_at : Nat
deriving DecidableEq, Repr

/-- `s || null` on an optional string: the empty string is falsy and becomes null. -/
def orNull (s : Option String) : Option String :=
  match s with
  | some v => if v = "" then none else some v
  | none => none

/-- The not-null violation PostgreSQL raises for a null `settlement_name`
in the proposed row of the `jobs` INSERT. -/
def notNullSettlementNameMsg : String :=
  "null value in column settlement_name of relation jobs violates not-null constraint"

/-- `db.createJob`: INSERT … ON CONFLICT (task_id) DO UPDATE.  The insert
parameters lower-case the wallet and apply `|| null` to `deal_id`, `error`
and `dataset_url_override`.  `settlement_name` is TEXT NOT NULL: a null value
in the proposed row raises a not-null violation before any ON CONFLICT
arbitration, so the query throws instead of merging.  Otherwise, on conflict
the update sets `deal_id`/`settlement_name`/`result` via
`COALESCE(EXCLUDED.x, jobs.x)` — with `EXCLUDED.settlement_name` known
non-null the COALESCE yields the proposed name — takes `status` and `error`
verbatim from the proposed row, refreshes `updated_at`, and touches no other
column.  Returns the new table and the RETURNING row. -/
def createJob (db : List JobRow) (d : CreateJobData) (now : Nat) :
    Except String (List JobRow × JobRow) :=
  match d.settlement_name with
  | none => .error notNullSettlementNameMsg
  | some name =>
      let excluded : JobRow :=
        { walletAddress := (orNull d.wallet_address).map toLowerStr
          taskId := d.task_id
          dealId := orNull d.deal_id
          settlementName := name
          status := d.status
          result := d.result
          error := orNull d.error
          datasetUrlOverride := orNull d.dataset_url_override
          submittedAt := d.submitted_at
          settledTxHash := none
          settledAt := none
          createdAt := now
          updatedAt := now }
      match findJob db d.task_id with
      | none => .ok (db ++ [excluded], excluded)
      | some old =>
          let merged : JobRow :=
            { old with
              dealId := excluded.dealId.orElse (fun _ => old.dealId)
              settlementName := excluded.settlementName
              status := excluded.status
              result := excluded.result.orElse (fun _ => old.result)
              error := excluded.error
              updatedAt := now }
          .ok (replaceJob db d.task_id merged, merged)

/-- Arguments of `db.updateJobByTaskId(taskId, updates)`: the outer `Option`
is JavaScript `undefined` (field absent, no SET clause); the inner `Option`
on nullable columns is SQL null. -/
structure JobUpdates where
  status : Option String
  result : Option (Option String)
  error : Option (Option String)
  settledTxHash : Option (Option String)
  settledAt : Option (Option Nat)
deriving DecidableEq, Repr

/-- At least one SET clause (otherwise the source returns null untouched). -/
def hasAnyUpdate (u : JobUpdates) : Bool :=
  u.status.isSome || u.result.isSome || u.error.isSome ||
    u.settledTxHash.isSome || u.settledAt.isSome

/-- `db.updateJobByTaskId`: builds one SET clause per defined field plus
`updated_at = NOW()` and updates the row with the given task id; returns
`none` when no field was supplied or the task id is unknown. -/
def updateJobByTaskId (db : List JobRow) (taskId : String) (u : JobUpdates)
    (now : Nat) : List JobRow × Option JobRow :=
  if hasAnyUpdate u then
    match findJob db taskId with
    | none => (db, none)
    | some old =>
        let new : JobRow :=
          { old with
            status := u.status.getD old.status
            result := u.result.getD old.result
            error := u.error.getD old.error
            settledTxHash := u.settledTxHash.getD old.settledTxHash
            settledAt := u.settledAt.getD old.settledAt
            updatedAt := now }
        (replaceJob db taskId new, some new)
  else (db, none)

/-! ## Treasury Cache (`getTreasuryBalanceRoute`, settlement.js lines 120-185,
backed by `getTreasuryBalance`/`setTreasuryBalance`, db.js lines 71-103)

The route resolves configuration, computes `forceRefresh` from the `refresh`
query parameter, serves a stored row when the DB is configured and no refresh
was forced, and otherwise reads the live balance, persists it when the DB is
configured (`setTreasuryBalance`, an uncaught await inside the route's `try`),
and answers with `source: "chain"`.  The model makes the `balanceOf` chain
read explicit via a flag and models a `setTreasuryBalance` failure as the
thrown message `persistError`. -/

structure TreasuryRow where
  balanceRaw : String
  balanceFormatted : String
deriving DecidableEq, Repr

/-- `getTreasuryBalance`: SELECT by lower-cased settlement address. -/
def getTreasuryBalance (cache : List (String × TreasuryRow)) (addr : String) :
    Option TreasuryRow :=
  (cache.find? (fun p => p.1 = toLowerStr addr)).map Prod.snd

/-- `setTreasuryBalance`: upsert keyed by lower-cased settlement address. -/
def setTreasuryBalance (cache : List (String × TreasuryRow)) (addr : String)
    (row : TreasuryRow) : List (String × TreasuryRow) :=
  if (cache.find? (fun p => p.1 = toLowerStr addr)).isSome then
    cache.map (fun p => if p.1 = toLowerStr addr then (p.1, row) else p)
  else cache ++ [(toLowerStr addr, row)]

structure TreasuryEnv where
  /-- `ARBITRUM_SEPOLIA_RPC_URL` -/
  rpcUrl : Option String
  /-- `SETTLEMENT_CONTRACT_ADDRESS` -/
  settlementAddress : Option String
  /-- `TEST_USDC_ADDRESS` -/
  envTokenAddress : Option String
  /-- result of `contract.token()`; `none` models the call throwing -/
  contractToken : Option String
  /-- `db.isDbConfigured()` -/
  dbConfigured : Bool
  /-- the `treasury_balance` table -/
  cache : List (String × TreasuryRow)
  /-- current `token.balanceOf(settlementAddress)` on chain -/
  chainBalance : Nat
  /-- `none`: `setTreasuryBalance` succeeds; `some m`: it throws message `m` -/
  persistError : Option String
deriving Repr

inductive TreasuryResp where
  | ok (balanceFormatted balanceRaw settlementAddress source : String)
  | err (code : Nat) (msg : String)
deriving DecidableEq, Repr

structure TreasuryOutcome where
  resp : TreasuryResp
  cache : List (String × TreasuryRow)
  /-- whether `token.balanceOf` was called during this request -/
  balanceChainRead : Bool
deriving DecidableEq, Repr

/-- The chain-read tail of the route (settlement.js lines 164-180): read the
live balance, format it, persist when the DB is configured (an uncaught
failure there lands in the route's catch as a 500), and answer
`source: "chain"`. -/
def treasuryChainPath (env : TreasuryEnv) (addr : String) : TreasuryOutcome :=
  let raw := env.chainBalance
  let formatted := formatUsdc raw
  if env.dbConfigured then
    match env.persistError with
    | some m => ⟨.err 500 m, env.cache, true⟩
    | none =>
        ⟨.ok formatted (toString raw) addr "chain",
         setTreasuryBalance env.cache addr ⟨toString raw, formatted⟩, true⟩
  else ⟨.ok formatted (toString raw) addr "chain", env.cache, true⟩

/-- `GET /settlement/treasury-balance` (settlement.js lines 120-185).
`refresh` is the raw query parameter. -/
def getTreasuryBalanceRoute (env : TreasuryEnv) (refresh : Option String) :
    TreasuryOutcome :=
  match env.rpcUrl, env.settlementAddress with
  | some _, some addr =>
      match env.envTokenAddress.orElse (fun _ => env.contractToken) with
      | none => ⟨.err 503 "Could not resolve token address.", env.cache, false⟩
      | some _ =>
          let forceRefresh := refresh = some "1" || refresh = some "true"
          if env.dbConfigured && !forceRefresh then
            match getTreasuryBalance env.cache addr with
            | some row =>
                ⟨.ok row.balanceFormatted row.balanceRaw addr "database",
                 env.cache, false⟩
            | none => treasuryChainPath env addr
          else treasuryChainPath env addr
  | _, _ =>
      ⟨.err 503
        "Settlement not configured. Set ARBITRUM_SEPOLIA_RPC_URL and SETTLEMENT_CONTRACT_ADDRESS.",
       env.cache, false⟩

/-! ## Settlement Executor (`postExecute`, settlement.js lines 317-372)

The route validates array shape and the attestation's string shape with
explicit `res.status(400)` responses; the per-recipient address check and the
per-amount finiteness check, by contrast, `throw` inside the surrounding
`try`, so their failures land in the generic catch (`res.status(500)`), as
does an invalid hex attestation (`ethers.getBytes` throws).  Amounts are
numbers after `Number(a)`: either non-finite (`NaN`/±Infinity) or a finite
decimal; `ethers.parseUnits(String(n), 6)` throws unless the value is an
integer multiple of 10^-6.  `checksum` abstracts `ethers.getAddress` (EIP-55
checksumming, applied to the lower-cased trimmed input). -/

/-- The value of one `amounts[]` element after `Number(a)`: either non-finite
(`NaN`, `±Infinity`), or a finite decimal `±(units · 10^-shift)` — the decimal
numeral `String(n)` prints (taken in canonical form). -/
inductive JsNumber where
  | nan
  | finite (neg : Bool) (units : Nat) (shift : Nat)
deriving DecidableEq, Repr

/-- Hexadecimal digit value, `none` for a non-hex character
(the `[0-9a-fA-F]` class of the address regular expression). -/
def hexVal (c : Char) : Option Nat :=
  if '0' ≤ c && c ≤ '9' then some (c.toNat - 48)
  else if 'a' ≤ c && c ≤ 'f' then some (c.toNat - 87)
  else if 'A' ≤ c && c ≤ 'F' then some (c.toNat - 55)
  else none

/-- The test `/^0x[0-9a-fA-F]{40}$/.test(s)` from settlement.js line 344. -/
def isHexAddress (s : String) : Bool :=
  strStartsWith s "0x" && s.length = 42 && allChars (s.drop 2) (fun c => (hexVal c).isSome)

/-- Decode a list of hex characters two at a time into bytes
(`none` on an odd count or a non-hex character). -/
def bytesOfHex : List Char → Option (List Nat)
  | [] => some []
  | [_] => none
  | c1 :: c2 :: rest =>
      match hexVal c1, hexVal c2, bytesOfHex rest with
      | some h1, some h2, some bs => some ((16 * h1 + h2) :: bs)
      | _, _, _ => none

/-- Distinguishable throws raised inside `postExecute`'s `try` block before
the transaction is sent (each becomes a 500 via the generic catch). -/
inductive ExecThrow where
  /-- `throw new Error("Invalid address: " + s)` for a recipient failing the regex -/
  | invalidAddress (s : String)
  /-- `throw new Error("Invalid amount: " + a)` for a non-finite or negative amount -/
  | invalidAmount
  /-- `ethers.parseUnits` throwing on a fraction below 10^-6 -/
  | parseUnitsUnderflow
  /-- `ethers.getBytes` throwing on a malformed hex attestation -/
  | invalidBytes
deriving DecidableEq, Repr

/-- Outcome of one `postExecute` request up to the transaction submission. -/
inductive ExecOutcome where
  /-- 503: executor not configured -/
  | notConfigured
  /-- explicit `res.status(400)` validation response -/
  | badRequest (msg : String)
  /-- a throw inside the `try`, answered by the catch with status 500 -/
  | caught (e : ExecThrow)
  /-- `contract.settleBatch(recipients, amounts, attestation)` is reached -/
  | submitted (recipients : List String) (amounts : List Nat) (attestation : List Nat)
deriving DecidableEq, Repr

/-- `ethers.getBytes` on the attestation string. -/
def getBytes (s : String) : Except ExecThrow (List Nat) :=
  if strStartsWith s "0x" then
    match bytesOfHex (s.drop 2).data with
    | some bs => .ok bs
    | none => .error .invalidBytes
  else .error .invalidBytes

/-- The `recipients.map(...)` of settlement.js lines 342-346: trim, test the
address regex (throwing on failure), lower-case, checksum. -/
def checksumRecipients (checksum : String → String) :
    List String → Except ExecThrow (List String)
  | [] => .ok []
  | addr :: rest =>
      let s := trimStr addr
      if isHexAddress s then
        match checksumRecipients checksum rest with
        | .ok tl => .ok (checksum (toLowerStr s) :: tl)
        | .error e => .error e
      else .error (.invalidAddress s)

/-- The `amounts.map(...)` of settlement.js lines 352-356: reject non-finite
or negative numbers (`n < 0` is false for negative zero), then
`ethers.parseUnits(String(n), 6)`, which scales by 10^6 and throws when the
value is not an integer multiple of 10^-6. -/
def parseAmounts : List JsNumber → Except ExecThrow (List Nat)
  | [] => .ok []
  | a :: rest =>
      match a with
      | .nan => .error .invalidAmount
      | .finite neg units shift =>
          if neg && units != 0 then .error .invalidAmount
          else if shift ≤ 6 then
            match parseAmounts rest with
            | .ok tl => .ok (units * 10 ^ (6 - shift) :: tl)
            | .error e => .error e
          else if units % 10 ^ (shift - 6) = 0 then
            match parseAmounts rest with
            | .ok tl => .ok (units / 10 ^ (shift - 6) :: tl)
            | .error e => .error e
          else .error .parseUnitsUnderflow

/-- `POST /settlement/execute` (settlement.js lines 317-372), up to the
`settleBatch` call.  `recipients`/`amounts` are `none` when the body field is
not an array; `attestation` is `none` when absent or not a string. -/
def postExecute (checksum : String → String) (configured : Bool)
    (recipients : Option (List String)) (amounts : Option (List JsNumber))
    (attestation : Option String) : ExecOutcome :=
  if !configured then .notConfigured
  else
    match recipients, amounts with
    | some rs, some amts =>
        if rs.length ≠ amts.length then
          .badRequest "Invalid body: need recipients and amounts arrays of the same length"
        else
          match attestation with
          | none => .badRequest "Invalid attestation: must be 0x-prefixed hex string"
          | some att =>
              if att = "" || !strStartsWith att "0x" then
                .badRequest "Invalid attestation: must be 0x-prefixed hex string"
              else if rs.length = 0 then
                .badRequest "At least one recipient required"
              else
                match checksumRecipients checksum rs with
                | .error e => .caught e
                | .ok rsChecksummed =>
                    match parseAmounts amts with
                    | .error e => .caught e
                    | .ok amountsWei =>
                        match getBytes att with
                        | .error e => .caught e
                        | .ok attestationBytes =>
                            .submitted rsChecksummed amountsWei attestationBytes
    | _, _ =>
        .badRequest "Invalid body: need recipients and amounts arrays of the same length"

/-- HTTP status of a `postExecute` outcome (`none` when the request proceeds
to submission and the status depends on the chain's answer). -/
def execHttpStatus : ExecOutcome → Option Nat
  | .notConfigured => some 503
  | .badRequest _ => some 400
  | .caught _ => some 500
  | .submitted _ _ _ => none

/-! ## Revert decoding (`decodeSettlementRevert` and the catch handler,
settlement.js lines 366-389)

The catch handler always answers with status 500 and the message
`decodeSettlementRevert(err) ?? err.reason ?? err.shortMessage ?? err.message
?? "Settlement execute failed"`.  The decoder reads
`err.data ?? err.info?.error?.data`, requires a `0x`-prefixed string, and
looks up the lower-cased 10-character selector in a fixed table. -/

structure JsError where
  data : Option String
  infoErrorData : Option String
  reason : Option String
  shortMessage : Option String
  message : Option String
deriving DecidableEq, Repr

def insufficientTreasuryMsg : String :=
  "Insufficient balance in settlement contract. Deposit USDC to the treasury first (Profile → Deposit USDC)."

def alreadySettledMsg : String :=
  "This settlement was already executed on-chain. Each attestation can only be used once. Open a different job or run a new confidential settlement."

def unauthorizedExecutorMsg : String :=
  "Only the configured executor can call settle. Check SETTLEMENT_EXECUTOR_PRIVATE_KEY matches the contract executor."

/-- `decodeSettlementRevert` (settlement.js lines 375-389). -/
def decodeSettlementRevert (err : JsError) : Option String :=
  match err.data.orElse (fun _ => err.infoErrorData) with
  | none => none
  | some data =>
      if !strStartsWith data "0x" then none
      else
        let selector := toLowerStr (data.take 10)
        if selector = "0xf4d678b8" then some insufficientTreasuryMsg
        else if selector = "0x17ee279c" then some alreadySettledMsg
        else if selector = "0x7fb6be02" then some unauthorizedExecutorMsg
        else none

/-- The catch handler of `postExecute` (settlement.js lines 366-371):
status 500 with the first defined message in the fallback chain. -/
def executeCatchHandler (err : JsError) : Nat × String :=
  (500,
    (decodeSettlementRevert err).getD
      (err.reason.getD (err.shortMessage.getD (err.message.getD "Settlement execute failed"))))

end ShadowSettle

/-! # Theorems -/

namespace ShadowSettle

/-- Below 1000 the locale rendering of the whole part has no separator. -/
theorem toLocaleString_small : ∀ w < 1000, toLocaleString w = toString w := by decide

/-- The padded-and-truncated fractional string of an amount with exactly two
fractional digits is exactly those two digits. -/
theorem fracStr_two_digits : ∀ d1 < 10, ∀ d2 < 10,
    (padStart6 (toString ((10 * d1 + d2) * 10000))).take 2 =
      String.mk [Char.ofNat (48 + d1), Char.ofNat (48 + d2)] := by decide

/-- C5 counterexample: the amount `0.123456` is expressible exactly at 6
decimal digits, but `formatUsdc` truncates the fractional part to two display
digits, so `format(parse("0.123456")) = "0.12" ≠ "0.123456"`: the round-trip
claimed by the spec fails. -/
theorem C5_counterexample :
    formatUsdc (parseUnits6 0 [1, 2, 3, 4, 5, 6]) = "0.12" ∧
      renderDec 0 [1, 2, 3, 4, 5, 6] = "0.123456" ∧
      formatUsdc (parseUnits6 0 [1, 2, 3, 4, 5, 6]) ≠ renderDec 0 [1, 2, 3, 4, 5, 6] := by
  refine ⟨by decide, by decide, by decide⟩

/-- C5 (amended): the format/parse round-trip holds exactly on the amounts the
display format can represent: whole part below 1000 (no thousands separator)
and exactly two fractional digits.  For such an amount `w.d1d2`,
`formatUsdc (parseUnits6 w [d1, d2])` renders the original numeral. -/
theorem C5_amended (w d1 d2 : Nat) (hw : w < 1000) (h1 : d1 < 10) (h2 : d2 < 10) :
    formatUsdc (parseUnits6 w [d1, d2]) = renderDec w [d1, d2] := by
  have e1 : parseUnits6 w [d1, d2] = w * 1000000 + (10 * d1 + d2) * 10000 := by
    simp [parseUnits6]
    ring
  have hdiv : (w * 1000000 + (10 * d1 + d2) * 10000) / 1000000 = w := by omega
  have hmod : (w * 1000000 + (10 * d1 + d2) * 10000) % 1000000 = (10 * d1 + d2) * 10000 := by
    omega
  have e2 : (10 : Nat) ^ 6 = 1000000 := by norm_num
  rw [formatUsdc, e1, e2, hdiv, hmod, toLocaleString_small w hw,
    fracStr_two_digits d1 h1 d2 h2]
  simp [renderDec]

/-- C5 witness: the amended round-trip at the concrete amount `12.34`. -/
theorem C5_witness :
    12 < 1000 ∧ 3 < 10 ∧ 4 < 10 ∧
      formatUsdc (parseUnits6 12 [3, 4]) = renderDec 12 [3, 4] :=
  ⟨by decide, by decide, by decide, C5_amended 12 3 4 (by decide) (by decide) (by decide)⟩

/-- C1: in the run where the subscription never signals completion or error,
the deadline firing settles the promise with the timeout rejection — but the
subscription is never cancelled (the source discards the unsubscribe handle,
so `cancelInvocations` stays 0 instead of the claimed exactly-once), the
subscription stays active, and a stream callback arriving after the timeout is
still delivered. -/
theorem C1_timeout_leaks_subscription :
    (runWait [.timerFire]).settled = some (.error "Task observation timeout") ∧
      (runWait [.timerFire]).timerActive = false ∧
      (runWait [.timerFire]).subscriptionActive = true ∧
      (runWait [.timerFire]).cancelInvocations = 0 ∧
      (runWait [.timerFire, .obsNext]).callbacksSeen = 1 := by
  refine ⟨rfl, rfl, rfl, rfl, rfl⟩

/-- C2 counterexample: a task whose network status is the numeric code `1`
(not completed) makes `fetchTaskResult` return that raw code with
`result: null`; the returned status is neither the closed-enum value
`"COMPLETED"` nor `"OTHER"`, so non-completed codes are not mapped to
`OTHER` as claimed. -/
theorem C2_counterexample :
    fetchTaskResult (fun s => .ok s) (some (.num 1)) none = .ok (.num 1, none) ∧
      NetStatus.num 1 ≠ .sym "COMPLETED" ∧ NetStatus.num 1 ≠ .sym "OTHER" := by
  refine ⟨rfl, by decide, by decide⟩

/-- C2 (amended): `fetchTaskResult` returns `{status, result}` with `result`
null unless the returned status is `"COMPLETED"`, and every non-completed
network status — numeric or symbolic — is returned verbatim (an absent status
becomes `"UNKNOWN"`) with `result: null` and without raising an error; the
non-completed codes are not collapsed to a literal `OTHER` value. -/
theorem C2_amended (jsonParse : String → Except String String)
    (st : Option NetStatus) (entry : Option String) :
    (∀ stOut res, fetchTaskResult jsonParse st entry = .ok (stOut, res) →
        res.isSome → stOut = .sym "COMPLETED") ∧
      (isCompletedStatus st = false →
        fetchTaskResult jsonParse st entry = .ok (st.getD (.sym "UNKNOWN"), none)) := by
  constructor
  · intro stOut res h hres
    by_cases hc : isCompletedStatus st
    · cases entry with
      | none => simp [fetchTaskResult, hc] at h
      | some raw =>
          cases hp : jsonParse raw with
          | error e => simp [fetchTaskResult, hc, hp] at h
          | ok payload =>
              simp [fetchTaskResult, hc, hp] at h
              exact h.1.symm
    · simp only [Bool.not_eq_true] at hc
      simp [fetchTaskResult, hc] at h
      rcases h with ⟨h1, h2⟩
      rw [← h2] at hres
      simp at hres
  · intro hnc
    simp [fetchTaskResult, hnc]

/-- C2 witness: the amended behavior at the concrete non-completed numeric
status `1`. -/
theorem C2_witness :
    isCompletedStatus (some (.num 1)) = false ∧
      fetchTaskResult (fun s => .ok s) (some (.num 1)) (some "x") =
        .ok (.num 1, none) :=
  ⟨by decide, (C2_amended (fun s => .ok s) (some (.num 1)) (some "x")).2 (by decide)⟩

/-- C7 counterexample: a second `createJob` for an existing `taskId` whose
stored `result` is the non-null `"r1"` and whose new call carries the non-null
`"r2"` stores `"r2"`: `COALESCE(EXCLUDED.result, jobs.result)` prefers the
latest non-null value, so an already-set non-null result IS overwritten,
contradicting first-non-null-wins. -/
theorem C7_counterexample :
    ((createJob
        [{ walletAddress := none, taskId := "t1", dealId := some "d1",
           settlementName := "Settlement", status := "completed",
           result := some "r1", error := none, datasetUrlOverride := none,
           submittedAt := 5, settledTxHash := none, settledAt := none,
           createdAt := 5, updatedAt := 6 }]
        { wallet_address := none, task_id := "t1", deal_id := none,
          settlement_name := some "Settlement", status := "completed",
          result := some "r2", error := none, dataset_url_override := none,
          submitted_at := 7 } 8).toOption.map (fun p => p.2.result)) =
      some (some "r2") ∧
      (some "r2" : Option String) ≠ some "r1" := by
  refine ⟨rfl, by decide⟩

/-- C7 (amended): `createJob` on an existing `taskId` merges: `status` and
`error` are taken verbatim from the latest call, `updatedAt` is refreshed, and
`dealId` keeps its stored value when the new value is null.  `settlementName`
is always taken from the latest call: its proposed value is never null on a
successful call, because an explicit null `settlement_name` raises a not-null
violation before any ON CONFLICT merge (and an absent one defaults to
`"Settlement"`).  For `result` the latest non-null value wins: a null new
result preserves the stored one, while a non-null new result overwrites it
even when a non-null result was already set. -/
theorem C7_amended (db : List JobRow) (d : CreateJobData) (now : Nat)
    (old : JobRow) (name : String)
    (hname : d.settlement_name = some name)
    (h : findJob db d.task_id = some old) :
    (∃ merged : JobRow,
      createJob db d now = .ok (replaceJob db d.task_id merged, merged) ∧
        merged.status = d.status ∧
        merged.error = orNull d.error ∧
        merged.updatedAt = now ∧
        merged.settlementName = name ∧
        (orNull d.deal_id = none → merged.dealId = old.dealId) ∧
        (d.result = none → merged.result = old.result) ∧
        (∀ r, d.result = some r → merged.result = some r)) ∧
      (∀ d' : CreateJobData, d'.settlement_name = none →
        createJob db d' now = .error notNullSettlementNameMsg) := by
  constructor
  · refine ⟨{ old with
        dealId := (orNull d.deal_id).orElse (fun _ => old.dealId),
        settlementName := name, status := d.status,
        result := d.result.orElse (fun _ => old.result),
        error := orNull d.error, updatedAt := now }, ?_, rfl, rfl, rfl, rfl, ?_, ?_, ?_⟩
    · simp [createJob, hname, h]
    · intro hd
      simp [hd, Option.orElse]
    · intro hr
      simp [hr, Option.orElse]
    · intro r hr
      simp [hr, Option.orElse]
  · intro d' hd'
    simp [createJob, hd']

/-- C7 witness: the amended merge at a concrete existing row — the latest
status wins while a null new result preserves the stored `"r1"`. -/
theorem C7_witness :
    ∃ merged : JobRow,
      createJob
          [{ walletAddress := none, taskId := "t1", dealId := some "d1",
             settlementName := "Settlement", status := "submitted",
             result := some "r1", error := none, datasetUrlOverride := none,
             submittedAt := 5, settledTxHash := none, settledAt := none,
             createdAt := 5, updatedAt := 6 }]
          { wallet_address := none, task_id := "t1", deal_id := none,
            settlement_name := some "Settlement", status := "completed",
            result := none, error := none, dataset_url_override := none,
            submitted_at := 7 } 8 =
        .ok (replaceJob
          [{ walletAddress := none, taskId := "t1", dealId := some "d1",
             settlementName := "Settlement", status := "submitted",
             result := some "r1", error := none, datasetUrlOverride := none,
             submittedAt := 5, settledTxHash := none, settledAt := none,
             createdAt := 5, updatedAt := 6 }] "t1" merged, merged) ∧
        merged.status = "completed" ∧ merged.result = some "r1" := by
  have h := C7_amended
    [{ walletAddress := none, taskId := "t1", dealId := some "d1",
       settlementName := "Settlement", status := "submitted",
       result := some "r1", error := none, datasetUrlOverride := none,
       submittedAt := 5, settledTxHash := none, settledAt := none,
       createdAt := 5, updatedAt := 6 }]
    { wallet_address := none, task_id := "t1", deal_id := none,
      settlement_name := some "Settlement", status := "completed",
      result := none, error := none, dataset_url_override := none,
      submitted_at := 7 } 8
    { walletAddress := none, taskId := "t1", dealId := some "d1",
      settlementName := "Settlement", status := "submitted",
      result := some "r1", error := none, datasetUrlOverride := none,
      submittedAt := 5, settledTxHash := none, settledAt := none,
      createdAt := 5, updatedAt := 6 } "Settlement" rfl (by decide)
  obtain ⟨merged, h1, h2, h3, h4, h5, h6, h7, h8⟩ := h.1
  exact ⟨merged, h1, h2, h7 rfl⟩

/-- C10: on a successful upsert over an existing `taskId` (the proposed
`settlement_name` non-null, as every reachable call supplies), the DO UPDATE
clause touches only `deal_id`, `settlement_name`, `status`, `result`, `error`
and `updated_at`: the stored `walletAddress`, `submittedAt`,
`datasetUrlOverride`, `settledTxHash`, `settledAt`, `createdAt` and `taskId`
are all preserved, even when the new call supplies different values for
them. -/
theorem C10_create_conflict_frame (db : List JobRow) (d : CreateJobData)
    (now : Nat) (old : JobRow) (name : String)
    (hname : d.settlement_name = some name)
    (h : findJob db d.task_id = some old) :
    ∃ merged : JobRow,
      createJob db d now = .ok (replaceJob db d.task_id merged, merged) ∧
        merged.walletAddress = old.walletAddress ∧
        merged.submittedAt = old.submittedAt ∧
        merged.datasetUrlOverride = old.datasetUrlOverride ∧
        merged.settledTxHash = old.settledTxHash ∧
        merged.settledAt = old.settledAt ∧
        merged.createdAt = old.createdAt ∧
        merged.taskId = old.taskId := by
  refine ⟨{ old with
      dealId := (orNull d.deal_id).orElse (fun _ => old.dealId),
      settlementName := name, status := d.status,
      result := d.result.orElse (fun _ => old.result),
      error := orNull d.error, updatedAt := now },
    ?_, rfl, rfl, rfl, rfl, rfl, rfl, rfl⟩
  simp [createJob, hname, h]

/-- C10 witness: the frame at a concrete row where the second call supplies a
different wallet and submission time; both stored values survive. -/
theorem C10_witness :
    ∃ merged : JobRow,
      createJob
          [{ walletAddress := some "0xaaa", taskId := "t1", dealId := some "d1",
             settlementName := "Settlement", status := "submitted",
             result := none, error := none, datasetUrlOverride := none,
             submittedAt := 5, settledTxHash := some "0xhash", settledAt := some 9,
             createdAt := 5, updatedAt := 6 }]
          { wallet_address := some "0xBBB", task_id := "t1", deal_id := none,
            settlement_name := some "Settlement", status := "completed",
            result := none, error := none, dataset_url_override := some "u",
            submitted_at := 7 } 8 =
        .ok (replaceJob
          [{ walletAddress := some "0xaaa", taskId := "t1", dealId := some "d1",
             settlementName := "Settlement", status := "submitted",
             result := none, error := none, datasetUrlOverride := none,
             submittedAt := 5, settledTxHash := some "0xhash", settledAt := some 9,
             createdAt := 5, updatedAt := 6 }] "t1" merged, merged) ∧
        merged.walletAddress = some "0xaaa" ∧ merged.submittedAt = 5 := by
  have h := C10_create_conflict_frame
    [{ walletAddress := some "0xaaa", taskId := "t1", dealId := some "d1",
       settlementName := "Settlement", status := "submitted",
       result := none, error := none, datasetUrlOverride := none,
       submittedAt := 5, settledTxHash := some "0xhash", settledAt := some 9,
       createdAt := 5, updatedAt := 6 }]
    { wallet_address := some "0xBBB", task_id := "t1", deal_id := none,
      settlement_name := some "Settlement", status := "completed",
      result := none, error := none, dataset_url_override := some "u",
      submitted_at := 7 } 8
    { walletAddress := some "0xaaa", taskId := "t1", dealId := some "d1",
      settlementName := "Settlement", status := "submitted",
      result := none, error := none, datasetUrlOverride := none,
      submittedAt := 5, settledTxHash := some "0xhash", settledAt := some 9,
      createdAt := 5, updatedAt := 6 } "Settlement" rfl (by decide)
  obtain ⟨merged, h1, h2, h3, h4⟩ := h
  exact ⟨merged, h1, h2, h3⟩

/-- Replacing the row found under a task id makes the replacement the row
found under that id. -/
theorem findJob_replaceJob (tid : String) (new : JobRow) (hnew : new.taskId = tid) :
    ∀ db : List JobRow, (findJob db tid).isSome →
      findJob (replaceJob db tid new) tid = some new := by
  intro db
  induction db with
  | nil => intro h; simp [findJob] at h
  | cons r rest ih =>
      intro h
      by_cases hr : r.taskId = tid
      · simp [findJob, replaceJob, hr, hnew]
      · have hpr : ¬(decide (r.taskId = tid) = true) := by simpa using hr
        have hrep : replaceJob (r :: rest) tid new = r :: replaceJob rest tid new := by
          simp only [replaceJob, List.map_cons, if_neg hr]
        have hstep : findJob (r :: rest) tid = findJob rest tid :=
          List.find?_cons_of_neg _ hpr
        have hstep' : findJob (r :: replaceJob rest tid new) tid =
            findJob (replaceJob rest tid new) tid :=
          List.find?_cons_of_neg _ hpr
        rw [hrep, hstep']
        rw [hstep] at h
        exact ih h

/-- C9: the Job Ledger does not enforce the `settledTxHash → result` invariant:
`updateJobByTaskId` applied to a job whose `result` is still null, with only
`settledTxHash` supplied, succeeds and stores the hash while `result` stays
null — the invariant can only be upheld by callers never settling before a
result exists. -/
theorem C9_patch_stores_settledTxHash (db : List JobRow) (tid hash : String)
    (old : JobRow) (now : Nat)
    (hfind : findJob db tid = some old) (hres : old.result = none) :
    ∃ new : JobRow,
      updateJobByTaskId db tid
          { status := none, result := none, error := none,
            settledTxHash := some (some hash), settledAt := none } now =
        (replaceJob db tid new, some new) ∧
      new.settledTxHash = some hash ∧
      new.result = none ∧
      findJob (replaceJob db tid new) tid = some new := by
  have htid : old.taskId = tid := by
    have h' := List.find?_some hfind
    simpa using h'
  refine ⟨{ old with settledTxHash := some hash, updatedAt := now }, ?_, rfl, hres, ?_⟩
  · simp [updateJobByTaskId, hasAnyUpdate, hfind]
  · exact findJob_replaceJob tid
      { old with settledTxHash := some hash, updatedAt := now } htid db
      (by rw [hfind]; rfl)

/-- C9 witness: the ledger stores a settlement hash on a concrete job whose
result is null. -/
theorem C9_witness :
    ∃ new : JobRow,
      updateJobByTaskId
          [{ walletAddress := none, taskId := "t1", dealId := some "d1",
             settlementName := "Settlement", status := "submitted",
             result := none, error := none, datasetUrlOverride := none,
             submittedAt := 5, settledTxHash := none, settledAt := none,
             createdAt := 5, updatedAt := 6 }] "t1"
          { status := none, result := none, error := none,
            settledTxHash := some (some "0xdead"), settledAt := none } 9 =
        (replaceJob
          [{ walletAddress := none, taskId := "t1", dealId := some "d1",
             settlementName := "Settlement", status := "submitted",
             result := none, error := none, datasetUrlOverride := none,
             submittedAt := 5, settledTxHash := none, settledAt := none,
             createdAt := 5, updatedAt := 6 }] "t1" new, some new) ∧
      new.settledTxHash = some "0xdead" ∧
      new.result = none ∧
      findJob (replaceJob
          [{ walletAddress := none, taskId := "t1", dealId := some "d1",
             settlementName := "Settlement", status := "submitted",
             result := none, error := none, datasetUrlOverride := none,
             submittedAt := 5, settledTxHash := none, settledAt := none,
             createdAt := 5, updatedAt := 6 }] "t1" new) "t1" = some new :=
  C9_patch_stores_settledTxHash
    [{ walletAddress := none, taskId := "t1", dealId := some "d1",
       settlementName := "Settlement", status := "submitted",
       result := none, error := none, datasetUrlOverride := none,
       submittedAt := 5, settledTxHash := none, settledAt := none,
       createdAt := 5, updatedAt := 6 }] "t1" "0xdead"
    { walletAddress := none, taskId := "t1", dealId := some "d1",
      settlementName := "Settlement", status := "submitted",
      result := none, error := none, datasetUrlOverride := none,
      submittedAt := 5, settledTxHash := none, settledAt := none,
      createdAt := 5, updatedAt := 6 } 9 (by decide) rfl

/-- C8: with the backing store configured, (1) a cache hit without a forced
refresh answers the stored row with `source: "database"`, reads no balance
from chain and leaves the store unchanged; (2) `source: "database"` is only
ever produced from an existing stored row; (3) a forced refresh (when the
persist succeeds) always reads the chain — even when a row is cached — and
overwrites the stored row with the freshly read value. -/
theorem C8_cache_policy (env : TreasuryEnv) (refresh : Option String)
    (rpc addr tok : String)
    (hrpc : env.rpcUrl = some rpc) (haddr : env.settlementAddress = some addr)
    (htok : env.envTokenAddress.orElse (fun _ => env.contractToken) = some tok)
    (hdb : env.dbConfigured = true) :
    (∀ row, getTreasuryBalance env.cache addr = some row →
        (refresh = some "1" || refresh = some "true") = false →
        getTreasuryBalanceRoute env refresh =
          ⟨.ok row.balanceFormatted row.balanceRaw addr "database", env.cache, false⟩) ∧
      (∀ f r a, (getTreasuryBalanceRoute env refresh).resp = .ok f r a "database" →
        (getTreasuryBalance env.cache addr).isSome) ∧
      ((refresh = some "1" || refresh = some "true") = true →
        env.persistError = none →
        getTreasuryBalanceRoute env refresh =
          ⟨.ok (formatUsdc env.chainBalance) (toString env.chainBalance) addr "chain",
            setTreasuryBalance env.cache addr
              ⟨toString env.chainBalance, formatUsdc env.chainBalance⟩, true⟩) := by
  refine ⟨?_, ?_, ?_⟩
  · intro row hrow hforce
    simp [getTreasuryBalanceRoute, hrpc, haddr, htok, hdb, hforce, hrow]
  · intro f r a hresp
    by_cases hforce : (refresh = some "1" || refresh = some "true") = true
    · cases hpe : env.persistError with
      | none =>
          simp [getTreasuryBalanceRoute, treasuryChainPath, hrpc, haddr, htok,
            hdb, hforce, hpe] at hresp
      | some m =>
          simp [getTreasuryBalanceRoute, treasuryChainPath, hrpc, haddr, htok,
            hdb, hforce, hpe] at hresp
    · rw [Bool.not_eq_true] at hforce
      cases hc : getTreasuryBalance env.cache addr with
      | some row => simp
      | none =>
          cases hpe : env.persistError with
          | none =>
              simp [getTreasuryBalanceRoute, treasuryChainPath, hrpc, haddr, htok,
                hdb, hforce, hc, hpe] at hresp
          | some m =>
              simp [getTreasuryBalanceRoute, treasuryChainPath, hrpc, haddr, htok,
                hdb, hforce, hc, hpe] at hresp
  · intro hforce hpe
    simp [getTreasuryBalanceRoute, treasuryChainPath, hrpc, haddr, htok, hdb,
      hforce, hpe]

/-- C8 witness: a concrete configured environment with a populated store —
the route answers the stored row with `source: "database"` and no chain read. -/
theorem C8_witness :
    getTreasuryBalance [("0xa", ⟨"5", "0.00"⟩)] "0xA" = some ⟨"5", "0.00"⟩ ∧
      getTreasuryBalanceRoute
          { rpcUrl := some "r", settlementAddress := some "0xA",
            envTokenAddress := some "t", contractToken := none,
            dbConfigured := true, cache := [("0xa", ⟨"5", "0.00"⟩)],
            chainBalance := 7, persistError := none } none =
        ⟨.ok "0.00" "5" "0xA" "database", [("0xa", ⟨"5", "0.00"⟩)], false⟩ :=
  ⟨by decide,
    (C8_cache_policy
        { rpcUrl := some "r", settlementAddress := some "0xA",
          envTokenAddress := some "t", contractToken := none,
          dbConfigured := true, cache := [("0xa", ⟨"5", "0.00"⟩)],
          chainBalance := 7, persistError := none } none "r" "0xA" "t"
        rfl rfl rfl rfl).1 ⟨"5", "0.00"⟩ (by decide) (by decide)⟩

/-- C6 counterexample: backing store configured, no stored row, and a failing
persist: the route answers HTTP 500 with the persist failure's message — it
does not return the chain value with `source: "chain"` as claimed (the
`setTreasuryBalance` await is not wrapped in any try/catch of its own, so the
failure lands in the route's generic catch). -/
theorem C6_counterexample :
    getTreasuryBalanceRoute
        { rpcUrl := some "r", settlementAddress := some "0xA",
          envTokenAddress := some "t", contractToken := none,
          dbConfigured := true, cache := [], chainBalance := 7,
          persistError := some "database write failed" } none =
      ⟨.err 500 "database write failed", [], true⟩ ∧
      ∀ f r a, TreasuryResp.err 500 "database write failed" ≠ .ok f r a "chain" := by
  refine ⟨rfl, ?_⟩
  intro f r a h
  simp at h

/-- C6 (amended): when a treasury-balance read falls through to a chain read
while the backing store is configured, a failure while persisting the freshly
read balance DOES fail the read: the route answers HTTP 500 with the persist
error's message, and the chain value is not returned. -/
theorem C6_amended (env : TreasuryEnv) (refresh : Option String)
    (rpc addr tok m : String)
    (hrpc : env.rpcUrl = some rpc) (haddr : env.settlementAddress = some addr)
    (htok : env.envTokenAddress.orElse (fun _ => env.contractToken) = some tok)
    (hdb : env.dbConfigured = true)
    (hpe : env.persistError = some m)
    (hmiss : (refresh = some "1" || refresh = some "true") = true ∨
      getTreasuryBalance env.cache addr = none) :
    getTreasuryBalanceRoute env refresh = ⟨.err 500 m, env.cache, true⟩ := by
  rcases hmiss with hforce | hc
  · simp [getTreasuryBalanceRoute, treasuryChainPath, hrpc, haddr, htok, hdb,
      hforce, hpe]
  · by_cases hforce : (refresh = some "1" || refresh = some "true") = true
    · simp [getTreasuryBalanceRoute, treasuryChainPath, hrpc, haddr, htok, hdb,
        hforce, hpe]
    · rw [Bool.not_eq_true] at hforce
      simp [getTreasuryBalanceRoute, treasuryChainPath, hrpc, haddr, htok, hdb,
        hforce, hc, hpe]

/-- C6 witness: the amended behavior at the concrete failing-persist
environment. -/
theorem C6_witness :
    getTreasuryBalanceRoute
        { rpcUrl := some "r", settlementAddress := some "0xA",
          envTokenAddress := some "t", contractToken := none,
          dbConfigured := true, cache := [], chainBalance := 7,
          persistError := some "database write failed" } (some "1") =
      ⟨.err 500 "database write failed", [], true⟩ :=
  C6_amended
    { rpcUrl := some "r", settlementAddress := some "0xA",
      envTokenAddress := some "t", contractToken := none,
      dbConfigured := true, cache := [], chainBalance := 7,
      persistError := some "database write failed" } (some "1")
    "r" "0xA" "t" "database write failed" rfl rfl rfl rfl rfl (.inl (by decide))

/-- C4: the catch handler of `postExecute` always answers HTTP 500; revert
data whose selector is `0xf4d678b8` (case-insensitively) is surfaced as the
insufficient-treasury message, `0x17ee279c` as the already-settled message,
`0x7fb6be02` as the unauthorized-executor message; the three messages are
pairwise distinct; and whenever the selector table does not apply the handler
falls back to the underlying `reason`/`shortMessage`/`message`, preserving the
original error text. -/
theorem C4_revert_mapping (err : JsError) :
    (executeCatchHandler err).1 = 500 ∧
      (∀ s, err.data = some s → strStartsWith s "0x" = true →
        toLowerStr (s.take 10) = "0xf4d678b8" →
        (executeCatchHandler err).2 = insufficientTreasuryMsg) ∧
      (∀ s, err.data = some s → strStartsWith s "0x" = true →
        toLowerStr (s.take 10) = "0x17ee279c" →
        (executeCatchHandler err).2 = alreadySettledMsg) ∧
      (∀ s, err.data = some s → strStartsWith s "0x" = true →
        toLowerStr (s.take 10) = "0x7fb6be02" →
        (executeCatchHandler err).2 = unauthorizedExecutorMsg) ∧
      (decodeSettlementRevert err = none →
        (executeCatchHandler err).2 =
          err.reason.getD
            (err.shortMessage.getD (err.message.getD "Settlement execute failed"))) ∧
      insufficientTreasuryMsg ≠ alreadySettledMsg ∧
      insufficientTreasuryMsg ≠ unauthorizedExecutorMsg ∧
      alreadySettledMsg ≠ unauthorizedExecutorMsg := by
  refine ⟨rfl, ?_, ?_, ?_, ?_, by decide, by decide, by decide⟩
  · intro s hs hstart hsel
    simp [executeCatchHandler, decodeSettlementRevert, hs, Option.orElse, hstart, hsel]
  · intro s hs hstart hsel
    simp [executeCatchHandler, decodeSettlementRevert, hs, Option.orElse, hstart, hsel]
  · intro s hs hstart hsel
    simp [executeCatchHandler, decodeSettlementRevert, hs, Option.orElse, hstart, hsel]
  · intro h
    simp [executeCatchHandler, h]

/-- C4 witness: a contract rejection carrying revert data `0xf4d678b8` is
answered with status 500 and exactly the insufficient-treasury message. -/
theorem C4_witness :
    (executeCatchHandler
        { data := some "0xf4d678b8", infoErrorData := none, reason := none,
          shortMessage := none, message := some "execution reverted" }).1 = 500 ∧
      (executeCatchHandler
          { data := some "0xf4d678b8", infoErrorData := none, reason := none,
            shortMessage := none, message := some "execution reverted" }).2 =
        insufficientTreasuryMsg :=
  ⟨(C4_revert_mapping
      { data := some "0xf4d678b8", infoErrorData := none, reason := none,
        shortMessage := none, message := some "execution reverted" }).1,
    (C4_revert_mapping
        { data := some "0xf4d678b8", infoErrorData := none, reason := none,
          shortMessage := none, message := some "execution reverted" }).2.1
      "0xf4d678b8" rfl (by decide) (by decide)⟩

/-- A successful recipient pass is exactly trim + lower-case + checksum,
element by element. -/
theorem checksumRecipients_map (cs : String → String) :
    ∀ rs rc, checksumRecipients cs rs = .ok rc →
      rc = rs.map (fun a => cs (toLowerStr (trimStr a))) := by
  intro rs
  induction rs with
  | nil =>
      intro rc h
      simp [checksumRecipients] at h
      simp [h]
  | cons a rest ih =>
      intro rc h
      by_cases ha : isHexAddress (trimStr a)
      · rw [checksumRecipients, if_pos ha] at h
        cases hr : checksumRecipients cs rest with
        | error e => rw [hr] at h; simp at h
        | ok tl =>
            rw [hr] at h
            simp only [Except.ok.injEq] at h
            subst h
            simp [ih tl hr]
      · rw [checksumRecipients, if_neg ha] at h
        simp at h

/-- C3 counterexample: a configured executor receiving one malformed recipient
(with a well-formed attestation and amount) answers the throw-driven HTTP 500
of the generic catch, not the claimed ValidationError 400: the address test
happens inside the `try` block via `throw`, after the explicit 400 checks. -/
theorem C3_counterexample :
    postExecute id true (some ["zz"]) (some [.finite false 1 0]) (some "0x01") =
      .caught (.invalidAddress "zz") ∧
      execHttpStatus (.caught (.invalidAddress "zz")) = some 500 ∧
      some 500 ≠ some 400 := by
  refine ⟨by decide, rfl, by decide⟩

/-- C3 (amended): `postExecute` answers 400 only for the shape checks —
missing/non-array `recipients` or `amounts`, length mismatch, missing,
non-string, empty or non-`0x`-prefixed attestation string, and an empty
recipient list.  A recipient failing the 20-byte-address test and an amount
that is not finite and non-negative (or not exactly representable at 6
decimals) are instead thrown and answered with HTTP 500; the empty byte
attestation `"0x"` passes validation; and recipients that pass are normalized
to checksummed form (trim, lower-case, EIP-55 checksum) before sending. -/
theorem C3_amended (cs : String → String) (rs : List String)
    (amts : List JsNumber) (att : String) :
    (∀ amts' att', postExecute cs true none amts' att' =
        .badRequest "Invalid body: need recipients and amounts arrays of the same length") ∧
      (∀ rs' att', postExecute cs true rs' none att' =
        .badRequest "Invalid body: need recipients and amounts arrays of the same length") ∧
      (rs.length ≠ amts.length →
        postExecute cs true (some rs) (some amts) (some att) =
          .badRequest "Invalid body: need recipients and amounts arrays of the same length") ∧
      (rs.length = amts.length →
        postExecute cs true (some rs) (some amts) none =
          .badRequest "Invalid attestation: must be 0x-prefixed hex string") ∧
      (rs.length = amts.length → att = "" ∨ strStartsWith att "0x" = false →
        postExecute cs true (some rs) (some amts) (some att) =
          .badRequest "Invalid attestation: must be 0x-prefixed hex string") ∧
      (rs.length = amts.length → rs.length = 0 → att ≠ "" →
        strStartsWith att "0x" = true →
        postExecute cs true (some rs) (some amts) (some att) =
          .badRequest "At least one recipient required") ∧
      (∀ e, rs.length = amts.length → rs.length ≠ 0 → att ≠ "" →
        strStartsWith att "0x" = true → checksumRecipients cs rs = .error e →
        postExecute cs true (some rs) (some amts) (some att) = .caught e ∧
          execHttpStatus (.caught e) = some 500) ∧
      (∀ rc e, rs.length = amts.length → rs.length ≠ 0 → att ≠ "" →
        strStartsWith att "0x" = true → checksumRecipients cs rs = .ok rc →
        parseAmounts amts = .error e →
        postExecute cs true (some rs) (some amts) (some att) = .caught e ∧
          execHttpStatus (.caught e) = some 500) ∧
      (∀ rc aw, rs.length = amts.length → rs.length ≠ 0 →
        checksumRecipients cs rs = .ok rc → parseAmounts amts = .ok aw →
        postExecute cs true (some rs) (some amts) (some "0x") =
          .submitted rc aw []) ∧
      (∀ rc, checksumRecipients cs rs = .ok rc →
        rc = rs.map (fun a => cs (toLowerStr (trimStr a)))) := by
  refine ⟨?_, ?_, ?_, ?_, ?_, ?_, ?_, ?_, ?_, ?_⟩
  · intro amts' att'
    cases amts' <;> simp [postExecute]
  · intro rs' att'
    cases rs' <;> simp [postExecute]
  · intro hlen
    simp [postExecute, hlen]
  · intro hlen
    simp [postExecute, hlen]
  · intro hlen hbad
    rcases hbad with hbad | hbad <;> simp [postExecute, hlen, hbad]
  · intro hlen hz hne hpre
    have hrs : rs = [] := List.length_eq_zero.mp hz
    have hamts : amts = [] := List.length_eq_zero.mp (hlen ▸ hz)
    subst hrs hamts
    simp [postExecute, hne, hpre]
  · intro e hlen hnz hne hpre hcs
    have hamts : amts ≠ [] := by
      intro h'
      subst h'
      simp at hlen
      exact hnz (by simp [hlen])
    refine ⟨?_, rfl⟩
    simp [postExecute, hlen, hnz, hne, hpre, hcs, hamts]
  · intro rc e hlen hnz hne hpre hcs hp
    have hamts : amts ≠ [] := by
      intro h'
      subst h'
      simp at hlen
      exact hnz (by simp [hlen])
    refine ⟨?_, rfl⟩
    simp [postExecute, hlen, hnz, hne, hpre, hcs, hp, hamts]
  · intro rc aw hlen hnz hcs hp
    have hamts : amts ≠ [] := by
      intro h'
      subst h'
      simp at hlen
      exact hnz (by simp [hlen])
    simp [postExecute, hlen, hnz, hcs, hp, hamts, getBytes, strStartsWith,
      startsWithChars, bytesOfHex]
  · intro rc hcs
    exact checksumRecipients_map cs rs rc hcs

/-- C3 witness: the amended behavior exercised at concrete inputs — a
malformed recipient is a 500-class throw, the attestation `"0x"` (empty byte
data) passes validation and reaches submission with empty bytes. -/
theorem C3_witness :
    (postExecute id true (some ["zz"]) (some [.finite false 1 0]) (some "0x02") =
        .caught (.invalidAddress "zz") ∧
      execHttpStatus (.caught (.invalidAddress "zz")) = some 500) ∧
      postExecute id true
          (some ["0xf39fd6e51aad88f6f4ce6ab8827279cfffb92266"])
          (some [.finite false 1 0]) (some "0x") =
        .submitted [id (toLowerStr (trimStr "0xf39fd6e51aad88f6f4ce6ab8827279cfffb92266"))]
          [1000000] [] :=
  ⟨(C3_amended id ["zz"] [.finite false 1 0] "0x02").2.2.2.2.2.2.1 (.invalidAddress "zz")
      (by decide) (by decide) (by decide) (by decide) (by decide),
    (C3_amended id ["0xf39fd6e51aad88f6f4ce6ab8827279cfffb92266"] [.finite false 1 0] "0x").2.2.2.2.2.2.2.2.1
      [id (toLowerStr (trimStr "0xf39fd6e51aad88f6f4ce6ab8827279cfffb92266"))] [1000000]
      (by decide) (by decide) (by decide) (by decide)⟩

end ShadowSettle
